import Mathlib

/-!
Shallow embedding of `src/transcribe.py` (K-Psyche audio transcription worker).

The script is a command-line shim around the external `faster_whisper` engine:
it validates preconditions, possibly downgrades the device/precision when CUDA
is unavailable, invokes the engine once with fixed decoding parameters, joins
the returned segments, and prints the transcript to stdout with diagnostics on
stderr.

The external world (library availability, the filesystem, the CUDA probe, and
the engine itself) is modelled as a record of deterministic functions `Env`.
Exceptions are modelled with `Except String`; `sys.exit` is a distinct outcome
because Python's `SystemExit` is not caught by `except Exception` in `main`.
Python float constants passed verbatim to the engine are modelled as exact
rationals; Python `str.strip` is modelled over the ASCII whitespace characters.
-/

namespace Transcribe

/-- ASCII whitespace, the characters Python `str.strip()` removes
(restricted to the ASCII range). -/
def pyIsSpace (c : Char) : Bool :=
  c = ' ' || c = '\t' || c = '\n' || c = '\r' || c = '\x0b' || c = '\x0c'

/-- `l` with its leading and trailing whitespace characters removed:
the character-list form of Python `str.strip()`. -/
def pyStripData (l : List Char) : List Char :=
  (((l.dropWhile pyIsSpace).reverse).dropWhile pyIsSpace).reverse

/-- Python `str.strip()` with no arguments (ASCII whitespace). -/
def pyStrip (s : String) : String :=
  ⟨pyStripData s.data⟩

/-- Python `sep.join(parts)`. -/
def pyJoin (sep : String) (parts : List String) : String :=
  String.intercalate sep parts

/-- One transcription segment as produced by the engine: the script only
reads its `text` attribute (source line 78). -/
structure Segment where
  text : String
deriving DecidableEq, Repr

/-- Detection metadata returned by `model.transcribe` (source line 57, read at
line 73). `language_probability` is carried as its `:.2f`-formatted rendering,
since the script only interpolates it into a diagnostic string. -/
structure TranscribeInfo where
  language : String
  language_probability : String
deriving DecidableEq, Repr

/-- The arguments of the `WhisperModel(...)` constructor call
(source lines 48-54). -/
structure ModelArgs where
  model_size : String
  device : String
  compute_type : String
  cpu_threads : Nat
  num_workers : Nat
deriving DecidableEq, Repr

/-- The arguments of the `model.transcribe(...)` call (source lines 57-70).
Float constants are carried as exact rationals. -/
structure TranscribeArgs where
  audio_path : String
  language : Option String
  beam_size : Nat
  vad_filter : Bool
  min_silence_duration_ms : Nat
  vad_threshold : ℚ
  temperature : ℚ
  compression_ratio_threshold : ℚ
  log_prob_threshold : ℚ
  no_speech_threshold : ℚ
deriving DecidableEq, Repr

/-- The parsed command-line arguments of `transcribe_audio`
(source line 12 and `main`, lines 91-102). -/
structure Args where
  audio_path : String
  model_size : String
  language : Option String
  device : String
  compute_type : String
deriving DecidableEq, Repr

/-- The deterministic external world: library importability, the filesystem,
the CUDA-availability probe, and the engine (construction and transcription,
each of which may raise, modelled by `Except String`). -/
structure Env where
  fasterWhisperInstalled : Bool
  torchInstalled : Bool
  pathExists : String → Bool
  cudaAvailable : Bool
  loadModel : ModelArgs → Except String Unit
  runTranscribe : ModelArgs → TranscribeArgs → Except String (List Segment × TranscribeInfo)

/-- How a call of `transcribe_audio` ends: `sysExit` models `sys.exit(code)`
(`SystemExit`, which `main`'s `except Exception` does not catch), `raised`
models a Python exception propagating to the caller, `ok` a normal return. -/
inductive TAOutcome where
  | sysExit (code : Nat)
  | raised (msg : String)
  | ok (transcript : String)
deriving DecidableEq, Repr

/-- Observable effects of one `transcribe_audio` call: stderr lines in order,
the `WhisperModel` constructions performed, the `model.transcribe` calls
performed, and the outcome. -/
structure TAResult where
  stderr : List String
  modelCons : List ModelArgs
  transcribes : List TranscribeArgs
  outcome : TAOutcome
deriving DecidableEq, Repr

/-- Source line 29. -/
def importErrMsg : String :=
  "ERROR: faster-whisper not installed. Run: pip install faster-whisper"

/-- Source line 34. -/
def fileErrMsg (p : String) : String :=
  "ERROR: Audio file not found: " ++ p

/-- The `ImportError` message raised by `import torch` (source line 38) when
torch is absent. -/
def torchErrMsg : String :=
  "No module named \x27torch\x27"

/-- Source line 40. -/
def cudaWarnMsg : String :=
  "WARNING: CUDA not available, falling back to CPU"

/-- Source line 84. -/
def noSpeechMsg : String :=
  "WARNING: No speech detected in audio"

/-- The CUDA fallback test of source line 39. -/
def cudaFallback (env : Env) (a : Args) : Bool :=
  a.device = "cuda" && !env.cudaAvailable

/-- The effective `device` after source lines 39-41. -/
def effectiveDevice (env : Env) (a : Args) : String :=
  if cudaFallback env a then "cpu" else a.device

/-- The effective `compute_type` after source lines 39-42. -/
def effectiveComputeType (env : Env) (a : Args) : String :=
  if cudaFallback env a then "int8" else a.compute_type

/-- The warning lines emitted by the fallback branch (source line 40). -/
def fallbackWarn (env : Env) (a : Args) : List String :=
  if cudaFallback env a then [cudaWarnMsg] else []

/-- Source line 45. -/
def loadInfoMsg (env : Env) (a : Args) : String :=
  "INFO: Loading model \x27" ++ a.model_size ++ "\x27 on " ++
    effectiveDevice env a ++ " with " ++ effectiveComputeType env a

/-- The `WhisperModel` constructor arguments (source lines 48-54). -/
def mkModelArgs (env : Env) (a : Args) : ModelArgs :=
  { model_size := a.model_size
    device := effectiveDevice env a
    compute_type := effectiveComputeType env a
    cpu_threads := 4
    num_workers := 1 }

/-- The `model.transcribe` arguments (source lines 57-70). -/
def mkTranscribeArgs (a : Args) : TranscribeArgs :=
  { audio_path := a.audio_path
    language := a.language
    beam_size := 5
    vad_filter := true
    min_silence_duration_ms := 500
    vad_threshold := 1/2
    temperature := 0
    compression_ratio_threshold := 12/5
    log_prob_threshold := -1
    no_speech_threshold := 3/5 }

/-- Source line 73. -/
def detLangMsg (info : TranscribeInfo) : String :=
  "INFO: Detected language: " ++ info.language ++
    " (probability: " ++ info.language_probability ++ ")"

/-- The segment-collection loop of source lines 76-78: append each segment's
stripped text to `transcription_parts`. -/
def collectParts (segs : List Segment) : List String :=
  segs.foldl (fun acc s => acc ++ [pyStrip s.text]) []

/-- Source line 81: `" ".join(transcription_parts).strip()`. -/
def fullTranscription (segs : List Segment) : String :=
  pyStrip (pyJoin " " (collectParts segs))

/-- Shallow embedding of `transcribe_audio` (source lines 12-87). -/
def transcribe_audio (env : Env) (a : Args) : TAResult :=
  if env.fasterWhisperInstalled = false then
    { stderr := [importErrMsg], modelCons := [], transcribes := [],
      outcome := .sysExit 1 }
  else if env.pathExists a.audio_path = false then
    { stderr := [fileErrMsg a.audio_path], modelCons := [], transcribes := [],
      outcome := .sysExit 1 }
  else if env.torchInstalled = false then
    { stderr := [], modelCons := [], transcribes := [],
      outcome := .raised torchErrMsg }
  else
    let pre := fallbackWarn env a ++ [loadInfoMsg env a]
    let margs := mkModelArgs env a
    match env.loadModel margs with
    | .error e =>
        { stderr := pre, modelCons := [margs], transcribes := [],
          outcome := .raised e }
    | .ok _ =>
        let targs := mkTranscribeArgs a
        match env.runTranscribe margs targs with
        | .error e =>
            { stderr := pre, modelCons := [margs], transcribes := [targs],
              outcome := .raised e }
        | .ok (segs, info) =>
            let full := fullTranscription segs
            if full = "" then
              { stderr := pre ++ [detLangMsg info, noSpeechMsg],
                modelCons := [margs], transcribes := [targs],
                outcome := .ok "" }
            else
              { stderr := pre ++ [detLangMsg info],
                modelCons := [margs], transcribes := [targs],
                outcome := .ok full }

/-- Observable effects of one whole process run: stdout lines, stderr lines,
exit code, and the engine interactions. -/
structure ProcResult where
  stdout : List String
  stderr : List String
  exitCode : Nat
  modelCons : List ModelArgs
  transcribes : List TranscribeArgs
deriving DecidableEq, Repr

/-- Shallow embedding of `main` (source lines 90-119) after argument parsing:
run `transcribe_audio`; on normal return print the transcript to stdout and
exit 0; on an exception print `ERROR: <msg>` to stderr and exit 1; a
`sys.exit` from inside `transcribe_audio` passes through untouched. -/
def main_run (env : Env) (a : Args) : ProcResult :=
  let r := transcribe_audio env a
  match r.outcome with
  | .sysExit c =>
      { stdout := [], stderr := r.stderr, exitCode := c,
        modelCons := r.modelCons, transcribes := r.transcribes }
  | .raised e =>
      { stdout := [], stderr := r.stderr ++ ["ERROR: " ++ e], exitCode := 1,
        modelCons := r.modelCons, transcribes := r.transcribes }
  | .ok t =>
      { stdout := [t], stderr := r.stderr, exitCode := 0,
        modelCons := r.modelCons, transcribes := r.transcribes }

/-- Spec-side description of the Final Transcript ("For each segment, trim
leading/trailing whitespace from its text. Join all trimmed segment texts with
a single space separator, then trim the result again."), written with `map`
from the spec's wording, to be compared with the loop in the source. -/
def finalTranscriptSpec (segs : List Segment) : String :=
  pyStrip (pyJoin " " (segs.map fun s => pyStrip s.text))

/-! ### Concrete environments used to exercise the model -/

/-- A sample engine output with padded segment texts. -/
def segs0 : List Segment := [⟨" hello "⟩, ⟨"world "⟩]

/-- Sample detection metadata. -/
def info0 : TranscribeInfo := ⟨"en", "0.99"⟩

/-- A healthy machine without CUDA: everything installed, every path exists,
the engine loads and transcribes `segs0`. -/
def env0 : Env :=
  ⟨true, true, fun _ => true, false, fun _ => .ok (), fun _ _ => .ok (segs0, info0)⟩

/-- Arguments requesting CUDA with float32 precision. -/
def args0 : Args := ⟨"a.wav", "small", none, "cuda", "float32"⟩

/-- Arguments requesting the CPU with float32 precision. -/
def argsCpu : Args := ⟨"a.wav", "small", none, "cpu", "float32"⟩

/-- An engine output consisting of a single whitespace-only segment. -/
def segsWs : List Segment := [⟨"   "⟩]

/-- A machine with CUDA whose engine hears only silence. -/
def envWs : Env :=
  ⟨true, true, fun _ => true, true, fun _ => .ok (), fun _ _ => .ok (segsWs, info0)⟩

/-- A machine where `faster_whisper` is not importable. -/
def envNoFw : Env :=
  ⟨false, true, fun _ => true, true, fun _ => .ok (), fun _ _ => .ok (segs0, info0)⟩

/-- A machine where no audio file exists. -/
def envNoFile : Env :=
  ⟨true, true, fun _ => false, true, fun _ => .ok (), fun _ _ => .ok (segs0, info0)⟩

/-- A machine whose engine construction raises. -/
def envLoadFail : Env :=
  ⟨true, true, fun _ => true, true, fun _ => .error "CUDA out of memory",
    fun _ _ => .ok (segs0, info0)⟩

/-! ### Helper lemmas about `pyStrip` -/

lemma dropWhile_head?_not (p : Char → Bool) :
    ∀ (l : List Char) (c : Char), (l.dropWhile p).head? = some c → p c = false := by
  intro l
  induction l with
  | nil => intro c h; simp at h
  | cons a t ih =>
    intro c h
    rw [List.dropWhile_cons] at h
    by_cases hp : p a
    · rw [if_pos hp] at h
      exact ih c h
    · rw [if_neg hp] at h
      cases h
      simpa using hp

lemma getLast?_dropWhile_of_ne_nil (p : Char → Bool) :
    ∀ (l : List Char), l.dropWhile p ≠ [] →
      (l.dropWhile p).getLast? = l.getLast? := by
  intro l
  induction l with
  | nil => intro h; simp at h
  | cons a t ih =>
    intro h
    rw [List.dropWhile_cons] at h ⊢
    by_cases hp : p a
    · rw [if_pos hp] at h ⊢
      have ht : t ≠ [] := by
        rintro rfl
        simp at h
      rw [ih h]
      cases t with
      | nil => exact absurd rfl ht
      | cons b t2 => rw [List.getLast?_cons_cons]
    · rw [if_neg hp]

lemma pyStripData_getLast (l : List Char) (c : Char)
    (h : (pyStripData l).getLast? = some c) : pyIsSpace c = false := by
  unfold pyStripData at h
  rw [List.getLast?_reverse] at h
  exact dropWhile_head?_not _ _ _ h

lemma pyStripData_head (l : List Char) (c : Char)
    (h : (pyStripData l).head? = some c) : pyIsSpace c = false := by
  unfold pyStripData at h
  rw [List.head?_reverse] at h
  have hne : ((l.dropWhile pyIsSpace).reverse).dropWhile pyIsSpace ≠ [] := by
    intro he
    rw [he] at h
    simp at h
  rw [getLast?_dropWhile_of_ne_nil _ _ hne, List.getLast?_reverse] at h
  exact dropWhile_head?_not _ _ _ h

lemma pyStrip_head (s : String) (c : Char)
    (h : (pyStrip s).data.head? = some c) : pyIsSpace c = false :=
  pyStripData_head _ _ h

lemma pyStrip_getLast (s : String) (c : Char)
    (h : (pyStrip s).data.getLast? = some c) : pyIsSpace c = false :=
  pyStripData_getLast _ _ h

/-! ### The collection loop equals a `map` -/

lemma foldl_append_singleton (f : Segment → String) (l : List Segment) :
    ∀ acc : List String,
      l.foldl (fun r s => r ++ [f s]) acc = acc ++ l.map f := by
  induction l with
  | nil => intro acc; simp
  | cons a t ih => intro acc; simp [ih]

lemma collectParts_eq_map (segs : List Segment) :
    collectParts segs = segs.map fun s => pyStrip s.text := by
  simp [collectParts, foldl_append_singleton]

lemma fullTranscription_eq_spec (segs : List Segment) :
    fullTranscription segs = finalTranscriptSpec segs := by
  simp [fullTranscription, finalTranscriptSpec, collectParts_eq_map]

/-! ### Branch equations for `transcribe_audio` -/

lemma ta_no_fw (env : Env) (a : Args)
    (h1 : env.fasterWhisperInstalled = false) :
    transcribe_audio env a = ⟨[importErrMsg], [], [], .sysExit 1⟩ := by
  simp [transcribe_audio, h1]

lemma ta_no_file (env : Env) (a : Args)
    (h1 : env.fasterWhisperInstalled = true)
    (h2 : env.pathExists a.audio_path = false) :
    transcribe_audio env a = ⟨[fileErrMsg a.audio_path], [], [], .sysExit 1⟩ := by
  simp [transcribe_audio, h1, h2]

lemma ta_no_torch (env : Env) (a : Args)
    (h1 : env.fasterWhisperInstalled = true)
    (h2 : env.pathExists a.audio_path = true)
    (h3 : env.torchInstalled = false) :
    transcribe_audio env a = ⟨[], [], [], .raised torchErrMsg⟩ := by
  simp [transcribe_audio, h1, h2, h3]

lemma ta_load_err (env : Env) (a : Args) (e : String)
    (h1 : env.fasterWhisperInstalled = true)
    (h2 : env.pathExists a.audio_path = true)
    (h3 : env.torchInstalled = true)
    (h4 : env.loadModel (mkModelArgs env a) = .error e) :
    transcribe_audio env a =
      ⟨fallbackWarn env a ++ [loadInfoMsg env a], [mkModelArgs env a], [],
        .raised e⟩ := by
  simp [transcribe_audio, h1, h2, h3, h4]

lemma ta_tr_err (env : Env) (a : Args) (e : String)
    (h1 : env.fasterWhisperInstalled = true)
    (h2 : env.pathExists a.audio_path = true)
    (h3 : env.torchInstalled = true)
    (h4 : env.loadModel (mkModelArgs env a) = .ok ())
    (h5 : env.runTranscribe (mkModelArgs env a) (mkTranscribeArgs a) = .error e) :
    transcribe_audio env a =
      ⟨fallbackWarn env a ++ [loadInfoMsg env a], [mkModelArgs env a],
        [mkTranscribeArgs a], .raised e⟩ := by
  simp [transcribe_audio, h1, h2, h3, h4, h5]

lemma ta_ok_empty (env : Env) (a : Args) (segs : List Segment)
    (info : TranscribeInfo)
    (h1 : env.fasterWhisperInstalled = true)
    (h2 : env.pathExists a.audio_path = true)
    (h3 : env.torchInstalled = true)
    (h4 : env.loadModel (mkModelArgs env a) = .ok ())
    (h5 : env.runTranscribe (mkModelArgs env a) (mkTranscribeArgs a) =
      .ok (segs, info))
    (h6 : fullTranscription segs = "") :
    transcribe_audio env a =
      ⟨fallbackWarn env a ++ [loadInfoMsg env a] ++ [detLangMsg info, noSpeechMsg],
        [mkModelArgs env a], [mkTranscribeArgs a], .ok ""⟩ := by
  simp [transcribe_audio, h1, h2, h3, h4, h5, h6]

lemma ta_ok_nonempty (env : Env) (a : Args) (segs : List Segment)
    (info : TranscribeInfo)
    (h1 : env.fasterWhisperInstalled = true)
    (h2 : env.pathExists a.audio_path = true)
    (h3 : env.torchInstalled = true)
    (h4 : env.loadModel (mkModelArgs env a) = .ok ())
    (h5 : env.runTranscribe (mkModelArgs env a) (mkTranscribeArgs a) =
      .ok (segs, info))
    (h6 : fullTranscription segs ≠ "") :
    transcribe_audio env a =
      ⟨fallbackWarn env a ++ [loadInfoMsg env a] ++ [detLangMsg info],
        [mkModelArgs env a], [mkTranscribeArgs a],
        .ok (fullTranscription segs)⟩ := by
  simp [transcribe_audio, h1, h2, h3, h4, h5, h6]

/-- Exhaustive enumeration of the six observable shapes a `transcribe_audio`
call can take. -/
lemma ta_cases (env : Env) (a : Args) :
    transcribe_audio env a = ⟨[importErrMsg], [], [], .sysExit 1⟩ ∨
    transcribe_audio env a = ⟨[fileErrMsg a.audio_path], [], [], .sysExit 1⟩ ∨
    transcribe_audio env a = ⟨[], [], [], .raised torchErrMsg⟩ ∨
    (∃ e, transcribe_audio env a =
      ⟨fallbackWarn env a ++ [loadInfoMsg env a], [mkModelArgs env a], [],
        .raised e⟩) ∨
    (∃ e, transcribe_audio env a =
      ⟨fallbackWarn env a ++ [loadInfoMsg env a], [mkModelArgs env a],
        [mkTranscribeArgs a], .raised e⟩) ∨
    (∃ segs info, transcribe_audio env a =
      ⟨fallbackWarn env a ++ [loadInfoMsg env a] ++ [detLangMsg info] ++
          (if fullTranscription segs = "" then [noSpeechMsg] else []),
        [mkModelArgs env a], [mkTranscribeArgs a],
        .ok (fullTranscription segs)⟩) := by
  cases hfw : env.fasterWhisperInstalled with
  | false => exact Or.inl (ta_no_fw env a hfw)
  | true =>
  cases hex : env.pathExists a.audio_path with
  | false => exact Or.inr (Or.inl (ta_no_file env a hfw hex))
  | true =>
  cases htch : env.torchInstalled with
  | false => exact Or.inr (Or.inr (Or.inl (ta_no_torch env a hfw hex htch)))
  | true =>
  cases hl : env.loadModel (mkModelArgs env a) with
  | error e =>
      exact Or.inr (Or.inr (Or.inr (Or.inl ⟨e, ta_load_err env a e hfw hex htch hl⟩)))
  | ok u =>
  cases u
  cases htr : env.runTranscribe (mkModelArgs env a) (mkTranscribeArgs a) with
  | error e =>
      exact Or.inr (Or.inr (Or.inr (Or.inr (Or.inl
        ⟨e, ta_tr_err env a e hfw hex htch hl htr⟩))))
  | ok p =>
  obtain ⟨segs, info⟩ := p
  refine Or.inr (Or.inr (Or.inr (Or.inr (Or.inr ⟨segs, info, ?_⟩))))
  by_cases hfull : fullTranscription segs = ""
  · rw [ta_ok_empty env a segs info hfw hex htch hl htr hfull, if_pos hfull, hfull]
    simp
  · rw [ta_ok_nonempty env a segs info hfw hex htch hl htr hfull, if_neg hfull]
    simp

/-! ### Projections of `main_run` -/

lemma main_run_modelCons (env : Env) (a : Args) :
    (main_run env a).modelCons = (transcribe_audio env a).modelCons := by
  cases h : (transcribe_audio env a).outcome <;> simp [main_run, h]

lemma main_run_transcribes (env : Env) (a : Args) :
    (main_run env a).transcribes = (transcribe_audio env a).transcribes := by
  cases h : (transcribe_audio env a).outcome <;> simp [main_run, h]

lemma main_run_stderr_ext (env : Env) (a : Args) :
    ∃ tail, (main_run env a).stderr = (transcribe_audio env a).stderr ++ tail ∧
      (tail = [] ∨ ∃ e, tail = ["ERROR: " ++ e]) := by
  cases h : (transcribe_audio env a).outcome with
  | sysExit c => exact ⟨[], by simp [main_run, h], Or.inl rfl⟩
  | raised e => exact ⟨["ERROR: " ++ e], by simp [main_run, h], Or.inr ⟨e, rfl⟩⟩
  | ok t => exact ⟨[], by simp [main_run, h], Or.inl rfl⟩

/-- Every run either fails (empty stdout, exit 1, no normal return of
`transcribe_audio`) or succeeds with exit 0 and stdout holding exactly the
joined transcript. -/
lemma run_classify (env : Env) (a : Args) :
    ((main_run env a).stdout = [] ∧ (main_run env a).exitCode = 1 ∧
      ∀ t, (transcribe_audio env a).outcome ≠ .ok t) ∨
    (∃ segs, (transcribe_audio env a).outcome = .ok (fullTranscription segs) ∧
      (main_run env a).stdout = [fullTranscription segs] ∧
      (main_run env a).exitCode = 0) := by
  rcases ta_cases env a with h | h | h | ⟨e, h⟩ | ⟨e, h⟩ | ⟨segs, info, h⟩
  · exact Or.inl ⟨by simp [main_run, h], by simp [main_run, h], by rw [h]; simp⟩
  · exact Or.inl ⟨by simp [main_run, h], by simp [main_run, h], by rw [h]; simp⟩
  · exact Or.inl ⟨by simp [main_run, h], by simp [main_run, h], by rw [h]; simp⟩
  · exact Or.inl ⟨by simp [main_run, h], by simp [main_run, h], by rw [h]; simp⟩
  · exact Or.inl ⟨by simp [main_run, h], by simp [main_run, h], by rw [h]; simp⟩
  · exact Or.inr ⟨segs, by rw [h], by simp [main_run, h], by simp [main_run, h]⟩

/-- Every `WhisperModel` construction a run performs uses exactly the
arguments built at source lines 48-54. -/
lemma modelCons_mem (env : Env) (a : Args) :
    ∀ m ∈ (transcribe_audio env a).modelCons, m = mkModelArgs env a := by
  rcases ta_cases env a with h | h | h | ⟨e, h⟩ | ⟨e, h⟩ | ⟨segs, info, h⟩ <;>
    rw [h] <;> simp

/-- A run performs either no `model.transcribe` call or exactly the one
built at source lines 57-70. -/
lemma transcribes_cases (env : Env) (a : Args) :
    (main_run env a).transcribes = [] ∨
    (main_run env a).transcribes = [mkTranscribeArgs a] := by
  rw [main_run_transcribes]
  rcases ta_cases env a with h | h | h | ⟨e, h⟩ | ⟨e, h⟩ | ⟨segs, info, h⟩ <;>
    rw [h] <;> simp

/-! ### Distinguishing the diagnostic lines by their first character -/

lemma ne_of_head (s t : String) (h : s.data.head? ≠ t.data.head?) : s ≠ t :=
  fun he => h (by rw [he])

lemma errLine_head (e : String) : ("ERROR: " ++ e).data.head? = some 'E' := by
  simp only [String.data_append]
  rfl

lemma fileErr_head (p : String) : (fileErrMsg p).data.head? = some 'E' := by
  simp only [fileErrMsg, String.data_append]
  rfl

lemma loadInfo_head (env : Env) (a : Args) :
    (loadInfoMsg env a).data.head? = some 'I' := by
  simp only [loadInfoMsg, String.data_append]
  rfl

lemma detLang_head (info : TranscribeInfo) :
    (detLangMsg info).data.head? = some 'I' := by
  simp only [detLangMsg, String.data_append]
  rfl

lemma cudaWarn_ne_import : cudaWarnMsg ≠ importErrMsg := by decide

lemma cudaWarn_ne_noSpeech : cudaWarnMsg ≠ noSpeechMsg := by decide

lemma cudaWarn_ne_fileErr (p : String) : cudaWarnMsg ≠ fileErrMsg p :=
  ne_of_head _ _ (by rw [fileErr_head]; decide)

lemma cudaWarn_ne_errLine (e : String) : cudaWarnMsg ≠ "ERROR: " ++ e :=
  ne_of_head _ _ (by rw [errLine_head]; decide)

lemma cudaWarn_ne_loadInfo (env : Env) (a : Args) :
    cudaWarnMsg ≠ loadInfoMsg env a :=
  ne_of_head _ _ (by rw [loadInfo_head]; decide)

lemma cudaWarn_ne_detLang (info : TranscribeInfo) :
    cudaWarnMsg ≠ detLangMsg info :=
  ne_of_head _ _ (by rw [detLang_head]; decide)

/-- Once the three precondition checks pass, a run always constructs exactly
one engine, its stderr starts with the fallback warning (if any) and the
loading banner, and no `sys.exit` occurs. -/
lemma ta_reached (env : Env) (a : Args)
    (hfw : env.fasterWhisperInstalled = true)
    (hex : env.pathExists a.audio_path = true)
    (htch : env.torchInstalled = true) :
    (transcribe_audio env a).modelCons = [mkModelArgs env a] ∧
    (∃ rest, (transcribe_audio env a).stderr =
      fallbackWarn env a ++ [loadInfoMsg env a] ++ rest) ∧
    ∀ c, (transcribe_audio env a).outcome ≠ .sysExit c := by
  cases hl : env.loadModel (mkModelArgs env a) with
  | error e =>
      rw [ta_load_err env a e hfw hex htch hl]
      exact ⟨rfl, ⟨[], by simp⟩, by intro c; simp⟩
  | ok u =>
  cases u
  cases htr : env.runTranscribe (mkModelArgs env a) (mkTranscribeArgs a) with
  | error e =>
      rw [ta_tr_err env a e hfw hex htch hl htr]
      exact ⟨rfl, ⟨[], by simp⟩, by intro c; simp⟩
  | ok p =>
  obtain ⟨segs, info⟩ := p
  by_cases hfull : fullTranscription segs = ""
  · rw [ta_ok_empty env a segs info hfw hex htch hl htr hfull]
    exact ⟨rfl, ⟨[detLangMsg info, noSpeechMsg], by simp⟩, by intro c; simp⟩
  · rw [ta_ok_nonempty env a segs info hfw hex htch hl htr hfull]
    exact ⟨rfl, ⟨[detLangMsg info], by simp⟩, by intro c; simp⟩

/-! ### The claims -/

/-- Claim C1: when the caller asks for device "cuda" and the CUDA probe
reports it unavailable, the run continues past the fallback (no `sys.exit`
occurs anywhere in `transcribe_audio`), the fallback warning is emitted to
stderr, and the engine is constructed with device "cpu" and compute_type
"int8" regardless of the compute_type the caller requested. -/
theorem C1_cuda_fallback_forces_cpu_int8 (env : Env) (a : Args)
    (hfw : env.fasterWhisperInstalled = true)
    (hex : env.pathExists a.audio_path = true)
    (htch : env.torchInstalled = true)
    (hdev : a.device = "cuda")
    (hcuda : env.cudaAvailable = false) :
    cudaWarnMsg ∈ (main_run env a).stderr ∧
    (main_run env a).modelCons = [⟨a.model_size, "cpu", "int8", 4, 1⟩] ∧
    ∀ c, (transcribe_audio env a).outcome ≠ .sysExit c := by
  have hfb : cudaFallback env a = true := by
    simp [cudaFallback, hdev, hcuda]
  have hw : fallbackWarn env a = [cudaWarnMsg] := by
    simp [fallbackWarn, hfb]
  have hm : mkModelArgs env a = ⟨a.model_size, "cpu", "int8", 4, 1⟩ := by
    simp [mkModelArgs, effectiveDevice, effectiveComputeType, hfb]
  obtain ⟨hc, ⟨rest, hs⟩, hnx⟩ := ta_reached env a hfw hex htch
  obtain ⟨tail, hs2, _⟩ := main_run_stderr_ext env a
  refine ⟨?_, ?_, hnx⟩
  · rw [hs2, hs, hw]
    simp
  · rw [main_run_modelCons, hc, hm]

/-- Witness for C1 at a concrete machine without CUDA and a caller requesting
cuda with float32. -/
theorem C1_witness :
    cudaWarnMsg ∈ (main_run env0 args0).stderr ∧
    (main_run env0 args0).modelCons = [⟨args0.model_size, "cpu", "int8", 4, 1⟩] ∧
    ∀ c, (transcribe_audio env0 args0).outcome ≠ .sysExit c :=
  C1_cuda_fallback_forces_cpu_int8 env0 args0 rfl rfl rfl rfl rfl

/-- Claim C2: whenever the engine returns a list of segments, the value
returned by `transcribe_audio` is exactly: strip each segment's text, join
with single spaces, strip again — the source's append loop agrees with the
spec-side `map` formulation `finalTranscriptSpec`. -/
theorem C2_transcript_is_stripped_join (env : Env) (a : Args)
    (segs : List Segment) (info : TranscribeInfo)
    (hfw : env.fasterWhisperInstalled = true)
    (hex : env.pathExists a.audio_path = true)
    (htch : env.torchInstalled = true)
    (hload : env.loadModel (mkModelArgs env a) = .ok ())
    (htr : env.runTranscribe (mkModelArgs env a) (mkTranscribeArgs a) =
      .ok (segs, info)) :
    (transcribe_audio env a).outcome = .ok (finalTranscriptSpec segs) := by
  by_cases hfull : fullTranscription segs = ""
  · rw [ta_ok_empty env a segs info hfw hex htch hload htr hfull,
      ← fullTranscription_eq_spec, hfull]
  · rw [ta_ok_nonempty env a segs info hfw hex htch hload htr hfull,
      ← fullTranscription_eq_spec]

/-- Witness for C2 on the concrete padded segments of `segs0`. -/
theorem C2_witness :
    (transcribe_audio env0 args0).outcome = .ok (finalTranscriptSpec segs0) :=
  C2_transcript_is_stripped_join env0 args0 segs0 info0 rfl rfl rfl rfl rfl

/-- Claim C3: when the joined, trimmed transcript is empty, the run emits the
"no speech detected" warning on stderr, `transcribe_audio` returns the empty
string, the process exits 0, and stdout is a single empty line. -/
theorem C3_empty_transcript_not_an_error (env : Env) (a : Args)
    (segs : List Segment) (info : TranscribeInfo)
    (hfw : env.fasterWhisperInstalled = true)
    (hex : env.pathExists a.audio_path = true)
    (htch : env.torchInstalled = true)
    (hload : env.loadModel (mkModelArgs env a) = .ok ())
    (htr : env.runTranscribe (mkModelArgs env a) (mkTranscribeArgs a) =
      .ok (segs, info))
    (hempty : fullTranscription segs = "") :
    noSpeechMsg ∈ (main_run env a).stderr ∧
    (transcribe_audio env a).outcome = .ok "" ∧
    (main_run env a).exitCode = 0 ∧
    (main_run env a).stdout = [""] := by
  have h := ta_ok_empty env a segs info hfw hex htch hload htr hempty
  refine ⟨?_, ?_, ?_, ?_⟩ <;> simp [main_run, h]

/-- Witness for C3 on a machine whose engine hears only whitespace. -/
theorem C3_witness :
    noSpeechMsg ∈ (main_run envWs args0).stderr ∧
    (transcribe_audio envWs args0).outcome = .ok "" ∧
    (main_run envWs args0).exitCode = 0 ∧
    (main_run envWs args0).stdout = [""] :=
  C3_empty_transcript_not_an_error envWs args0 segsWs info0 rfl rfl rfl rfl rfl
    (by decide)

/-- Claim C4: on every execution path, stdout is either empty (and the exit
code nonzero) or holds exactly the transcript returned by `transcribe_audio`
(and the exit code is zero). Since stdout never receives anything but that
single returned transcript, every diagnostic line the program prints is on
stderr only. -/
theorem C4_stdout_holds_exactly_the_transcript (env : Env) (a : Args) :
    ((main_run env a).stdout = [] ∧ (main_run env a).exitCode ≠ 0) ∨
    (∃ t, (transcribe_audio env a).outcome = .ok t ∧
      (main_run env a).stdout = [t] ∧ (main_run env a).exitCode = 0) := by
  rcases run_classify env a with ⟨h1, h2, _⟩ | ⟨segs, h1, h2, h3⟩
  · exact Or.inl ⟨h1, by rw [h2]; decide⟩
  · exact Or.inr ⟨fullTranscription segs, h1, h2, h3⟩

/-- Claim C5: the import check runs first and the file-existence check second;
each failure prints its ERROR line to stderr and exits 1 before any engine is
constructed, with stdout empty. When the library is missing the file check is
never reached (its message never appears, whatever `pathExists` says). -/
theorem C5_precondition_checks_in_order (env : Env) (a : Args) :
    (env.fasterWhisperInstalled = false →
      main_run env a = ⟨[], [importErrMsg], 1, [], []⟩) ∧
    (env.fasterWhisperInstalled = true →
      env.pathExists a.audio_path = false →
      main_run env a = ⟨[], [fileErrMsg a.audio_path], 1, [], []⟩) := by
  constructor
  · intro h
    have hh := ta_no_fw env a h
    simp [main_run, hh]
  · intro h1 h2
    have hh := ta_no_file env a h1 h2
    simp [main_run, hh]

/-- Witness for C5: a machine without the library, and one without the file. -/
theorem C5_witness :
    main_run envNoFw args0 = ⟨[], [importErrMsg], 1, [], []⟩ ∧
    main_run envNoFile args0 = ⟨[], [fileErrMsg args0.audio_path], 1, [], []⟩ :=
  ⟨(C5_precondition_checks_in_order envNoFw args0).1 rfl,
   (C5_precondition_checks_in_order envNoFile args0).2 rfl rfl⟩

/-- Claim C6: an exception raised during engine construction or transcription
is caught at the single top-level boundary of `main`: the process exits 1,
stderr carries the line "ERROR: " followed by the exception's message, stdout
stays empty, and no retry occurs (at most one construction and one
transcription call happen). -/
theorem C6_exceptions_caught_at_top_level (env : Env) (a : Args) (e : String)
    (hfw : env.fasterWhisperInstalled = true)
    (hex : env.pathExists a.audio_path = true)
    (htch : env.torchInstalled = true)
    (hfail : env.loadModel (mkModelArgs env a) = .error e ∨
      (env.loadModel (mkModelArgs env a) = .ok () ∧
        env.runTranscribe (mkModelArgs env a) (mkTranscribeArgs a) = .error e)) :
    (main_run env a).exitCode = 1 ∧
    ("ERROR: " ++ e) ∈ (main_run env a).stderr ∧
    (main_run env a).stdout = [] ∧
    (main_run env a).transcribes.length ≤ 1 ∧
    (main_run env a).modelCons.length ≤ 1 := by
  rcases hfail with h | ⟨h1, h2⟩
  · have hh := ta_load_err env a e hfw hex htch h
    refine ⟨?_, ?_, ?_, ?_, ?_⟩ <;> simp [main_run, hh]
  · have hh := ta_tr_err env a e hfw hex htch h1 h2
    refine ⟨?_, ?_, ?_, ?_, ?_⟩ <;> simp [main_run, hh]

/-- Witness for C6 on a machine whose engine construction raises. -/
theorem C6_witness :
    (main_run envLoadFail args0).exitCode = 1 ∧
    ("ERROR: " ++ "CUDA out of memory") ∈ (main_run envLoadFail args0).stderr ∧
    (main_run envLoadFail args0).stdout = [] ∧
    (main_run envLoadFail args0).transcribes.length ≤ 1 ∧
    (main_run envLoadFail args0).modelCons.length ≤ 1 :=
  C6_exceptions_caught_at_top_level envLoadFail args0 "CUDA out of memory"
    rfl rfl rfl (Or.inl rfl)

/-- Claim C7: every invocation that reaches the engine call invokes it exactly
once, with the fixed decoding policy of source lines 57-70: beam width 5,
VAD filtering on with 500 ms minimum silence and 0.5 threshold, temperature 0,
compression-ratio threshold 2.4, log-probability threshold -1.0 and no-speech
threshold 0.6 — independent of any command-line input. -/
theorem C7_engine_called_once_with_fixed_policy (env : Env) (a : Args)
    (h : (main_run env a).transcribes ≠ []) :
    (main_run env a).transcribes = [mkTranscribeArgs a] ∧
    ∀ t ∈ (main_run env a).transcribes,
      t.beam_size = 5 ∧ t.vad_filter = true ∧
      t.min_silence_duration_ms = 500 ∧ t.vad_threshold = 1/2 ∧
      t.temperature = 0 ∧ t.compression_ratio_threshold = 12/5 ∧
      t.log_prob_threshold = -1 ∧ t.no_speech_threshold = 3/5 := by
  rcases transcribes_cases env a with hc | hc
  · exact absurd hc h
  · refine ⟨hc, ?_⟩
    intro t ht
    rw [hc] at ht
    simp at ht
    subst ht
    exact ⟨rfl, rfl, rfl, rfl, rfl, rfl, rfl, rfl⟩

/-- Witness for C7 on a healthy machine. -/
theorem C7_witness :
    (main_run env0 args0).transcribes = [mkTranscribeArgs args0] ∧
    ∀ t ∈ (main_run env0 args0).transcribes,
      t.beam_size = 5 ∧ t.vad_filter = true ∧
      t.min_silence_duration_ms = 500 ∧ t.vad_threshold = 1/2 ∧
      t.temperature = 0 ∧ t.compression_ratio_threshold = 12/5 ∧
      t.log_prob_threshold = -1 ∧ t.no_speech_threshold = 3/5 :=
  C7_engine_called_once_with_fixed_policy env0 args0 (by decide)

/-- Claim C8: with the external world modelled as deterministic functions, two
invocations agreeing on audio path, model size, language, device and
compute-type produce identical stdout. -/
theorem C8_same_inputs_same_stdout (env : Env) (a b : Args)
    (h1 : a.audio_path = b.audio_path)
    (h2 : a.model_size = b.model_size)
    (h3 : a.language = b.language)
    (h4 : a.device = b.device)
    (h5 : a.compute_type = b.compute_type) :
    (main_run env a).stdout = (main_run env b).stdout := by
  have hab : a = b := by
    cases a
    cases b
    simp_all
  rw [hab]

/-- Witness for C8: two identical invocations on a concrete machine. -/
theorem C8_witness :
    (main_run env0 args0).stdout = (main_run env0 args0).stdout :=
  C8_same_inputs_same_stdout env0 args0 args0 rfl rfl rfl rfl rfl

/-- Claim C9: whatever finite segment list the engine produces, the string
returned by `transcribe_audio` carries no leading and no trailing whitespace
character. -/
theorem C9_result_has_no_edge_whitespace (env : Env) (a : Args) (t : String)
    (h : (transcribe_audio env a).outcome = .ok t) :
    (∀ c, t.data.head? = some c → pyIsSpace c = false) ∧
    (∀ c, t.data.getLast? = some c → pyIsSpace c = false) := by
  rcases run_classify env a with ⟨_, _, hno⟩ | ⟨segs, hok, _, _⟩
  · exact absurd h (hno t)
  · have h2 := hok.symm.trans h
    injection h2 with h3
    have ht : t = fullTranscription segs := h3.symm
    subst ht
    constructor
    · intro c hc
      exact pyStrip_head _ _ hc
    · intro c hc
      exact pyStrip_getLast _ _ hc

/-- Witness for C9 on the concrete run returning "hello world". -/
theorem C9_witness :
    (∀ c, ("hello world" : String).data.head? = some c → pyIsSpace c = false) ∧
    (∀ c, ("hello world" : String).data.getLast? = some c →
      pyIsSpace c = false) :=
  C9_result_has_no_edge_whitespace env0 args0 "hello world" (by decide)

/-- Claim C10: with the device argument "cpu" the requested compute_type
reaches the engine unchanged and the fallback warning is never printed; and in
general a construction whose compute_type differs from the requested one can
only arise when the device argument was "cuda" with CUDA unavailable. -/
theorem C10_cpu_passes_compute_type_through (env : Env) (a : Args) :
    (a.device = "cpu" →
      (∀ m ∈ (main_run env a).modelCons,
        m.device = "cpu" ∧ m.compute_type = a.compute_type) ∧
      cudaWarnMsg ∉ (main_run env a).stderr) ∧
    (∀ m ∈ (main_run env a).modelCons, m.compute_type ≠ a.compute_type →
      a.device = "cuda" ∧ env.cudaAvailable = false) := by
  constructor
  · intro hdev
    have hfb : cudaFallback env a = false := by
      simp [cudaFallback, hdev]
    have hwa : fallbackWarn env a = [] := by
      simp [fallbackWarn, hfb]
    constructor
    · intro m hm
      rw [main_run_modelCons] at hm
      have hm2 := modelCons_mem env a m hm
      subst hm2
      constructor
      · simp [mkModelArgs, effectiveDevice, hfb, hdev]
      · simp [mkModelArgs, effectiveComputeType, hfb]
    · intro hmem
      obtain ⟨tail, hs, htail⟩ := main_run_stderr_ext env a
      rw [hs] at hmem
      rcases List.mem_append.mp hmem with hm | hm
      · rcases ta_cases env a with h | h | h | ⟨e, h⟩ | ⟨e, h⟩ | ⟨segs, info, h⟩ <;>
          rw [h] at hm <;> simp [hwa] at hm
        · exact cudaWarn_ne_import hm
        · exact cudaWarn_ne_fileErr a.audio_path hm
        · exact cudaWarn_ne_loadInfo env a hm
        · exact cudaWarn_ne_loadInfo env a hm
        · rcases hm with hm | hm | ⟨_, hm⟩
          · exact cudaWarn_ne_loadInfo env a hm
          · exact cudaWarn_ne_detLang info hm
          · exact cudaWarn_ne_noSpeech hm
      · rcases htail with rfl | ⟨e, rfl⟩
        · simp at hm
        · simp at hm
          exact cudaWarn_ne_errLine e hm
  · intro m hm hne
    rw [main_run_modelCons] at hm
    have hm2 := modelCons_mem env a m hm
    subst hm2
    by_cases hfb : cudaFallback env a = true
    · have hd := hfb
      simp [cudaFallback] at hd
      exact hd
    · exfalso
      apply hne
      have hfb2 : cudaFallback env a = false := by
        cases hq : cudaFallback env a
        · rfl
        · exact absurd hq hfb
      simp [mkModelArgs, effectiveComputeType, hfb2]

/-- Witness for C10 at a concrete cpu invocation with float32. -/
theorem C10_witness :
    (∀ m ∈ (main_run env0 argsCpu).modelCons,
      m.device = "cpu" ∧ m.compute_type = argsCpu.compute_type) ∧
    cudaWarnMsg ∉ (main_run env0 argsCpu).stderr :=
  (C10_cpu_passes_compute_type_through env0 argsCpu).1 rfl

end Transcribe
